import Mathlib

/-!
Verification of the NSS bignum backend adapter (`modules/nss/bn_ops.cpp`) of the
cryptofuzz differential-testing harness.

The adapter's 19 operation classes each expose
`Run(Datasource&, Bignum& res, std::vector<Bignum>& bn) -> bool`, wrapping one
native NSS routine (`mp_add`, `mp_exptmod`, ...) with the `CF_CHECK_EQ(..., MP_OKAY)`
goto-based early-exit idiom.

Embedding choices:
* A `Bignum` value is modelled by its integer value (`Int`): the spec's invariant is
  that textual and native representations always agree, so the value determines both.
* The NSS library itself is not part of this repository.  Its fallible arithmetic
  routines are kept fully abstract in a `Backend` structure: each takes the operand
  values and the prior value of the result slot and returns a status code together
  with the new value of the result slot (the routines write through the `res`
  pointer even on failure paths, so the returned value is unconstrained).
  The infallible predicate routines (`mp_cmp`, `mp_iseven`, `mp_isodd`) and the
  concrete `mathBackend` instance are modelled from the spec's interface
  description of the backend (three-way compare, parity check, arithmetic failing
  on division by zero).
* The mutable state visible to one `Run` call is `BnState` (result slot plus the
  operand vector).  `std::vector` indexing `bn[i]` is out of bounds when the vector
  is shorter: operand access is modelled with `List.getElem?`, and a `Run` whose
  operand access is out of bounds evaluates to `none`.
-/

namespace NSS_bignum

/-- Status code the NSS mpi library returns on success; `CF_CHECK_EQ` compares
against it. -/
def MP_OKAY : Int := 0

/-- Modelled from the spec: a representative non-success status code of the
backend library (the adapter only ever distinguishes `MP_OKAY` from the rest). -/
def MP_RANGE : Int := -11

/-- The fuzz-controlled decision source threaded through every `Run`; this adapter
casts it to `void` and never reads it. -/
structure Datasource where
  data : List Nat
  deriving DecidableEq, Repr

/-- The state one `Run` call can touch: the caller-owned result slot and the
operand vector. -/
structure BnState where
  res : Int
  bn : List Int
  deriving DecidableEq, Repr

/-- The backend library's fallible routines, kept abstract: each receives the
operand values and the prior value of the result slot, and returns
`(status, new value of the result slot)`. -/
structure Backend where
  mp_add : Int → Int → Int → Int × Int
  mp_sub : Int → Int → Int → Int × Int
  mp_mul : Int → Int → Int → Int × Int
  mp_div : Int → Int → Int → Int × Int
  mp_sqr : Int → Int → Int × Int
  mp_mod : Int → Int → Int → Int × Int
  mp_exptmod : Int → Int → Int → Int → Int × Int
  mp_gcd : Int → Int → Int → Int × Int
  mp_addmod : Int → Int → Int → Int → Int × Int
  mp_submod : Int → Int → Int → Int → Int × Int
  mp_mulmod : Int → Int → Int → Int → Int × Int
  mp_sqrmod : Int → Int → Int → Int × Int
  mp_invmod : Int → Int → Int → Int × Int
  mp_lcm : Int → Int → Int → Int × Int
  mp_abs : Int → Int → Int × Int
  mp_neg : Int → Int → Int × Int

/-- Modelled from the spec: the backend's three-way comparison routine
(`MP_LT = -1`, `MP_EQ = 0`, `MP_GT = 1`); the library header is not in the
repository. -/
def mp_cmp (a b : Int) : Int :=
  if a < b then -1 else if b < a then 1 else 0

/-- Modelled from the spec: the backend's even-parity check. -/
def mp_iseven (a : Int) : Bool := a % 2 == 0

/-- Modelled from the spec: the backend's odd-parity check. -/
def mp_isodd (a : Int) : Bool := a % 2 != 0

def decDigit? (c : Char) : Option Nat :=
  if '0' ≤ c ∧ c ≤ '9' then some (c.toNat - '0'.toNat) else none

def parseDigitsAux : List Char → Nat → Option Nat
  | [], acc => some acc
  | c :: cs, acc =>
    match decDigit? c with
    | some d => parseDigitsAux cs (acc * 10 + d)
    | none => none

def parseDigits (l : List Char) : Option Nat :=
  if l.isEmpty then none else parseDigitsAux l 0

/-- Modelled from the spec: `Bignum::Set` parses a decimal string (optionally
signed) into the native representation, failing if the text is not a valid
integer literal; the `Bignum` class body is not in the repository. -/
def Bignum.Set (text : String) : Option Int :=
  match text.data with
  | '-' :: rest => (parseDigits rest).map fun n => -(n : Int)
  | '+' :: rest => (parseDigits rest).map fun n => (n : Int)
  | l => (parseDigits l).map fun n => (n : Int)

/-- C++ `std::to_string` on an integer: a minus sign for negatives followed by
the decimal digits. -/
def std_to_string (n : Int) : String :=
  if n < 0 then "-" ++ Nat.repr n.natAbs else Nat.repr n.natAbs

/-- The closed operation catalogue of the adapter. -/
inductive Op
  | Add | Sub | Mul | Div | Sqr | Mod | ExpMod | GCD
  | AddMod | SubMod | MulMod | SqrMod | InvMod | LCM
  | Cmp | Abs | Neg | IsEven | IsOdd
  deriving DecidableEq, Repr

def Add.Run (B : Backend) (ds : Datasource) (s : BnState) : Option (Bool × BnState) := do
  let _ := ds
  let a ← s.bn[0]?
  let b ← s.bn[1]?
  let out := B.mp_add a b s.res
  pure (out.1 == MP_OKAY, { s with res := out.2 })

def Sub.Run (B : Backend) (ds : Datasource) (s : BnState) : Option (Bool × BnState) := do
  let _ := ds
  let a ← s.bn[0]?
  let b ← s.bn[1]?
  let out := B.mp_sub a b s.res
  pure (out.1 == MP_OKAY, { s with res := out.2 })

def Mul.Run (B : Backend) (ds : Datasource) (s : BnState) : Option (Bool × BnState) := do
  let _ := ds
  let a ← s.bn[0]?
  let b ← s.bn[1]?
  let out := B.mp_mul a b s.res
  pure (out.1 == MP_OKAY, { s with res := out.2 })

def Div.Run (B : Backend) (ds : Datasource) (s : BnState) : Option (Bool × BnState) := do
  let _ := ds
  let a ← s.bn[0]?
  let b ← s.bn[1]?
  let out := B.mp_div a b s.res
  pure (out.1 == MP_OKAY, { s with res := out.2 })

def Sqr.Run (B : Backend) (ds : Datasource) (s : BnState) : Option (Bool × BnState) := do
  let _ := ds
  let a ← s.bn[0]?
  let out := B.mp_sqr a s.res
  pure (out.1 == MP_OKAY, { s with res := out.2 })

def Mod.Run (B : Backend) (ds : Datasource) (s : BnState) : Option (Bool × BnState) := do
  let _ := ds
  let a ← s.bn[0]?
  let b ← s.bn[1]?
  let out := B.mp_mod a b s.res
  pure (out.1 == MP_OKAY, { s with res := out.2 })

def ExpMod.Run (B : Backend) (ds : Datasource) (s : BnState) : Option (Bool × BnState) := do
  let _ := ds
  let base ← s.bn[0]?
  let zero : Int := 0
  if mp_cmp zero base = 0 then
    pure (false, s)
  else
    let e ← s.bn[1]?
    let m ← s.bn[2]?
    let out := B.mp_exptmod base e m s.res
    pure (out.1 == MP_OKAY, { s with res := out.2 })

def GCD.Run (B : Backend) (ds : Datasource) (s : BnState) : Option (Bool × BnState) := do
  let _ := ds
  let a ← s.bn[0]?
  let b ← s.bn[1]?
  let out := B.mp_gcd a b s.res
  pure (out.1 == MP_OKAY, { s with res := out.2 })

def AddMod.Run (B : Backend) (ds : Datasource) (s : BnState) : Option (Bool × BnState) := do
  let _ := ds
  let a ← s.bn[0]?
  let b ← s.bn[1]?
  let m ← s.bn[2]?
  let out := B.mp_addmod a b m s.res
  pure (out.1 == MP_OKAY, { s with res := out.2 })

def SubMod.Run (B : Backend) (ds : Datasource) (s : BnState) : Option (Bool × BnState) := do
  let _ := ds
  let a ← s.bn[0]?
  let b ← s.bn[1]?
  let m ← s.bn[2]?
  let out := B.mp_submod a b m s.res
  pure (out.1 == MP_OKAY, { s with res := out.2 })

def MulMod.Run (B : Backend) (ds : Datasource) (s : BnState) : Option (Bool × BnState) := do
  let _ := ds
  let a ← s.bn[0]?
  let b ← s.bn[1]?
  let m ← s.bn[2]?
  let out := B.mp_mulmod a b m s.res
  pure (out.1 == MP_OKAY, { s with res := out.2 })

def SqrMod.Run (B : Backend) (ds : Datasource) (s : BnState) : Option (Bool × BnState) := do
  let _ := ds
  let a ← s.bn[0]?
  let m ← s.bn[1]?
  let out := B.mp_sqrmod a m s.res
  pure (out.1 == MP_OKAY, { s with res := out.2 })

def InvMod.Run (B : Backend) (ds : Datasource) (s : BnState) : Option (Bool × BnState) := do
  let _ := ds
  let a ← s.bn[0]?
  let m ← s.bn[1]?
  let out := B.mp_invmod a m s.res
  pure (out.1 == MP_OKAY, { s with res := out.2 })

def LCM.Run (B : Backend) (ds : Datasource) (s : BnState) : Option (Bool × BnState) := do
  let _ := ds
  let a ← s.bn[0]?
  let b ← s.bn[1]?
  let out := B.mp_lcm a b s.res
  pure (out.1 == MP_OKAY, { s with res := out.2 })

def Cmp.Run (B : Backend) (ds : Datasource) (s : BnState) : Option (Bool × BnState) := do
  let _ := B
  let _ := ds
  let a ← s.bn[0]?
  let b ← s.bn[1]?
  let v ← Bignum.Set (std_to_string (mp_cmp a b))
  pure (true, { s with res := v })

def Abs.Run (B : Backend) (ds : Datasource) (s : BnState) : Option (Bool × BnState) := do
  let _ := ds
  let a ← s.bn[0]?
  let out := B.mp_abs a s.res
  pure (out.1 == MP_OKAY, { s with res := out.2 })

def Neg.Run (B : Backend) (ds : Datasource) (s : BnState) : Option (Bool × BnState) := do
  let _ := ds
  let a ← s.bn[0]?
  let out := B.mp_neg a s.res
  pure (out.1 == MP_OKAY, { s with res := out.2 })

def IsEven.Run (B : Backend) (ds : Datasource) (s : BnState) : Option (Bool × BnState) := do
  let _ := B
  let _ := ds
  let a ← s.bn[0]?
  let v ← Bignum.Set (std_to_string (if mp_iseven a then 1 else 0))
  pure (true, { s with res := v })

def IsOdd.Run (B : Backend) (ds : Datasource) (s : BnState) : Option (Bool × BnState) := do
  let _ := B
  let _ := ds
  let a ← s.bn[0]?
  let v ← Bignum.Set (std_to_string (if mp_isodd a then 1 else 0))
  pure (true, { s with res := v })

/-- Dispatch an operation of the catalogue, exactly as the harness does. -/
def runOp (B : Backend) (op : Op) (ds : Datasource) (s : BnState) : Option (Bool × BnState) :=
  match op with
  | .Add => Add.Run B ds s
  | .Sub => Sub.Run B ds s
  | .Mul => Mul.Run B ds s
  | .Div => Div.Run B ds s
  | .Sqr => Sqr.Run B ds s
  | .Mod => Mod.Run B ds s
  | .ExpMod => ExpMod.Run B ds s
  | .GCD => GCD.Run B ds s
  | .AddMod => AddMod.Run B ds s
  | .SubMod => SubMod.Run B ds s
  | .MulMod => MulMod.Run B ds s
  | .SqrMod => SqrMod.Run B ds s
  | .InvMod => InvMod.Run B ds s
  | .LCM => LCM.Run B ds s
  | .Cmp => Cmp.Run B ds s
  | .Abs => Abs.Run B ds s
  | .Neg => Neg.Run B ds s
  | .IsEven => IsEven.Run B ds s
  | .IsOdd => IsOdd.Run B ds s

/-- Number of operand slots an operation actually reads (note: `SqrMod` reads
two, not one). -/
def opArity : Op → Nat
  | .Sqr | .Abs | .Neg | .IsEven | .IsOdd => 1
  | .Add | .Sub | .Mul | .Div | .Mod | .GCD | .LCM
  | .Cmp | .SqrMod | .InvMod => 2
  | .ExpMod | .AddMod | .SubMod | .MulMod => 3

/-- Specification-side view of one `Run` call: the `(status, written result)`
pair of the single backend call the operation makes, `none` when the operation
makes no backend call at all (the `ExpMod` base-zero short-circuit).  The
infallible predicate operations are assigned status `MP_OKAY`. -/
def callOutcome (B : Backend) (op : Op) (s : BnState) : Option (Int × Int) :=
  match op, s.bn with
  | .Add, a :: b :: _ => some (B.mp_add a b s.res)
  | .Sub, a :: b :: _ => some (B.mp_sub a b s.res)
  | .Mul, a :: b :: _ => some (B.mp_mul a b s.res)
  | .Div, a :: b :: _ => some (B.mp_div a b s.res)
  | .Sqr, a :: _ => some (B.mp_sqr a s.res)
  | .Mod, a :: b :: _ => some (B.mp_mod a b s.res)
  | .ExpMod, a :: b :: c :: _ =>
    if mp_cmp 0 a = 0 then none else some (B.mp_exptmod a b c s.res)
  | .GCD, a :: b :: _ => some (B.mp_gcd a b s.res)
  | .AddMod, a :: b :: c :: _ => some (B.mp_addmod a b c s.res)
  | .SubMod, a :: b :: c :: _ => some (B.mp_submod a b c s.res)
  | .MulMod, a :: b :: c :: _ => some (B.mp_mulmod a b c s.res)
  | .SqrMod, a :: b :: _ => some (B.mp_sqrmod a b s.res)
  | .InvMod, a :: b :: _ => some (B.mp_invmod a b s.res)
  | .LCM, a :: b :: _ => some (B.mp_lcm a b s.res)
  | .Cmp, a :: b :: _ =>
    (Bignum.Set (std_to_string (mp_cmp a b))).map fun v => (MP_OKAY, v)
  | .Abs, a :: _ => some (B.mp_abs a s.res)
  | .Neg, a :: _ => some (B.mp_neg a s.res)
  | .IsEven, a :: _ =>
    (Bignum.Set (std_to_string (if mp_iseven a then 1 else 0))).map fun v => (MP_OKAY, v)
  | .IsOdd, a :: _ =>
    (Bignum.Set (std_to_string (if mp_isodd a then 1 else 0))).map fun v => (MP_OKAY, v)
  | _, _ => none

/-- Modelled from the spec: a concrete instance of the backend interface doing
exact integer arithmetic, failing on division by zero, zero or invalid modulus,
and non-invertible elements.  Used to instantiate theorems at concrete inputs. -/
def mathBackend : Backend where
  mp_add := fun a b _ => (MP_OKAY, a + b)
  mp_sub := fun a b _ => (MP_OKAY, a - b)
  mp_mul := fun a b _ => (MP_OKAY, a * b)
  mp_div := fun a b r => if b = 0 then (MP_RANGE, r) else (MP_OKAY, Int.tdiv a b)
  mp_sqr := fun a _ => (MP_OKAY, a * a)
  mp_mod := fun a b r => if b = 0 then (MP_RANGE, r) else (MP_OKAY, a % b)
  mp_exptmod := fun a e m r =>
    if m ≤ 0 ∨ e < 0 then (MP_RANGE, r) else (MP_OKAY, (a ^ e.toNat) % m)
  mp_gcd := fun a b _ => (MP_OKAY, (Int.gcd a b : Int))
  mp_addmod := fun a b m r => if m = 0 then (MP_RANGE, r) else (MP_OKAY, (a + b) % m)
  mp_submod := fun a b m r => if m = 0 then (MP_RANGE, r) else (MP_OKAY, (a - b) % m)
  mp_mulmod := fun a b m r => if m = 0 then (MP_RANGE, r) else (MP_OKAY, (a * b) % m)
  mp_sqrmod := fun a m r => if m = 0 then (MP_RANGE, r) else (MP_OKAY, (a * a) % m)
  mp_invmod := fun a m r =>
    if 1 < m ∧ Int.gcd a m = 1 then (MP_OKAY, Int.gcdA a m % m) else (MP_RANGE, r)
  mp_lcm := fun a b _ => (MP_OKAY, (Int.lcm a b : Int))
  mp_abs := fun a _ => (MP_OKAY, |a|)
  mp_neg := fun a _ => (MP_OKAY, -a)

/-- A second concrete backend whose `mp_exptmod` differs from `mathBackend`,
used to exhibit that the base-zero path never consults `mp_exptmod`. -/
def altBackend : Backend :=
  { mathBackend with mp_exptmod := fun _ _ _ r => (MP_RANGE, r + 1) }

/-- An empty decision source for concrete instantiations. -/
def ds0 : Datasource := ⟨[]⟩

end NSS_bignum

namespace NSS_bignum

theorem set_std_cmp (a b : Int) :
    Bignum.Set (std_to_string (mp_cmp a b)) = some (mp_cmp a b) := by
  unfold mp_cmp
  by_cases h1 : a < b
  · simp only [h1, if_true]; decide
  · by_cases h2 : b < a
    · simp only [h1, h2, if_true, if_false]; decide
    · simp only [h1, h2, if_false]; decide

theorem set_std_bit (b : Bool) :
    Bignum.Set (std_to_string (if b then 1 else 0)) = some (if b then 1 else 0) := by
  cases b <;> decide

theorem runOp_eq_callOutcome (B : Backend) (op : Op) (ds : Datasource) (s : BnState)
    (h : opArity op ≤ s.bn.length) :
    runOp B op ds s =
      some ((callOutcome B op s).elim false (fun o => o.1 == MP_OKAY),
            { s with res := (callOutcome B op s).elim s.res Prod.snd }) := by
  rcases s with ⟨rs, bn⟩
  cases op <;>
    rcases bn with _ | ⟨a, bn⟩ <;>
    (try rcases bn with _ | ⟨b, bn⟩) <;>
    (try rcases bn with _ | ⟨c, bn⟩) <;>
    simp_all [runOp, opArity, callOutcome, Add.Run, Sub.Run, Mul.Run, Div.Run,
      Sqr.Run, Mod.Run, ExpMod.Run, GCD.Run, AddMod.Run, SubMod.Run, MulMod.Run,
      SqrMod.Run, InvMod.Run, LCM.Run, Cmp.Run, Abs.Run, Neg.Run, IsEven.Run,
      IsOdd.Run, set_std_cmp, set_std_bit]
  all_goals split <;> simp

/-- C1: for every operand vector whose base operand (index 0) is numerically
zero, `ExpMod::Run` returns false, whatever the exponent and modulus operands
hold (zero or negative included); the outcome is the same for every backend, so
in particular the backend's `mp_exptmod` is never consulted on this path. -/
theorem expmod_zero_skips_backend (B B' : Backend) (ds : Datasource) (s : BnState)
    (h : s.bn[0]? = some 0) :
    (runOp B .ExpMod ds s).map Prod.fst = some false ∧
    runOp B .ExpMod ds s = runOp B' .ExpMod ds s := by
  constructor <;> simp [runOp, ExpMod.Run, h, mp_cmp]

theorem expmod_zero_skips_backend_witness :
    (BnState.mk 7 [0, -3, 0]).bn[0]? = some 0 ∧
    ((runOp mathBackend .ExpMod ds0 (BnState.mk 7 [0, -3, 0])).map Prod.fst = some false ∧
      runOp mathBackend .ExpMod ds0 (BnState.mk 7 [0, -3, 0]) =
        runOp altBackend .ExpMod ds0 (BnState.mk 7 [0, -3, 0])) :=
  ⟨by decide, expmod_zero_skips_backend mathBackend altBackend ds0 _ (by decide)⟩

/-- C2: for every operation of the catalogue and every operand vector of the
operation's arity, `Run` returns `some` (it never throws), its boolean is true
exactly when the backend call it makes reports `MP_OKAY`, and on success the
result slot holds the value the backend call produced (the encoded predicate
for the comparison and parity operations). -/
theorem run_success_iff_backend_ok (B : Backend) (op : Op) (ds : Datasource)
    (s : BnState) (h : opArity op ≤ s.bn.length) :
    runOp B op ds s =
      some ((callOutcome B op s).elim false (fun o => o.1 == MP_OKAY),
            { s with res := (callOutcome B op s).elim s.res Prod.snd }) ∧
    ((runOp B op ds s).map Prod.fst = some true ↔
      ∃ v, callOutcome B op s = some (MP_OKAY, v)) := by
  refine ⟨runOp_eq_callOutcome B op ds s h, ?_⟩
  rw [runOp_eq_callOutcome B op ds s h]
  rcases hco : callOutcome B op s with _ | ⟨st, v⟩ <;>
    simp [hco, beq_iff_eq, Prod.ext_iff]

theorem run_success_iff_backend_ok_witness :
    opArity .Add ≤ (BnState.mk 0 [2, 3]).bn.length ∧
    (runOp mathBackend .Add ds0 (BnState.mk 0 [2, 3]) =
      some ((callOutcome mathBackend .Add (BnState.mk 0 [2, 3])).elim false
              (fun o => o.1 == MP_OKAY),
            { BnState.mk 0 [2, 3] with
                res := (callOutcome mathBackend .Add (BnState.mk 0 [2, 3])).elim
                  (BnState.mk 0 [2, 3]).res Prod.snd }) ∧
      ((runOp mathBackend .Add ds0 (BnState.mk 0 [2, 3])).map Prod.fst = some true ↔
        ∃ v, callOutcome mathBackend .Add (BnState.mk 0 [2, 3]) = some (MP_OKAY, v))) :=
  ⟨by decide, run_success_iff_backend_ok mathBackend .Add ds0 (BnState.mk 0 [2, 3]) (by decide)⟩

/-- C3: no operation of the catalogue mutates the operand vector: whenever a
`Run` call completes, the operand list of the resulting state is the operand
list it was given, whether the boolean is true or false. -/
theorem run_preserves_operands (B : Backend) (op : Op) (ds : Datasource)
    (s : BnState) (r : Bool) (t : BnState) (h : runOp B op ds s = some (r, t)) :
    t.bn = s.bn := by
  rcases s with ⟨rs, bn⟩
  cases op <;>
    rcases bn with _ | ⟨a, bn⟩ <;>
    (try rcases bn with _ | ⟨b, bn⟩) <;>
    (try rcases bn with _ | ⟨c, bn⟩) <;>
    simp_all [runOp, Add.Run, Sub.Run, Mul.Run, Div.Run,
      Sqr.Run, Mod.Run, ExpMod.Run, GCD.Run, AddMod.Run, SubMod.Run, MulMod.Run,
      SqrMod.Run, InvMod.Run, LCM.Run, Cmp.Run, Abs.Run, Neg.Run, IsEven.Run,
      IsOdd.Run, set_std_cmp, set_std_bit]
  all_goals (try split at h)
  all_goals aesop

theorem run_preserves_operands_witness :
    runOp mathBackend .Sub ds0 (BnState.mk 9 [5, 11]) =
      some (true, BnState.mk (-6) [5, 11]) ∧
    (BnState.mk (-6) [5, 11]).bn = (BnState.mk 9 [5, 11]).bn :=
  ⟨by decide,
    run_preserves_operands mathBackend .Sub ds0 (BnState.mk 9 [5, 11]) true
      (BnState.mk (-6) [5, 11]) (by decide)⟩

/-- C4: `Cmp::Run` never fails: on any pair of operands it returns true and
stores the three-way comparison value, which the source writes as decimal text
through `Bignum::Set ∘ std::to_string`; the value is always −1, 0 or 1, is 0
exactly when the operands are equal, and swapping the operands negates it. -/
theorem cmp_threeway_spec (B : Backend) (ds : Datasource) (r a b : Int) :
    runOp B .Cmp ds (BnState.mk r [a, b]) =
      some (true, BnState.mk (mp_cmp a b) [a, b]) ∧
    Bignum.Set (std_to_string (mp_cmp a b)) = some (mp_cmp a b) ∧
    (mp_cmp a b = -1 ∨ mp_cmp a b = 0 ∨ mp_cmp a b = 1) ∧
    (mp_cmp a b = 0 ↔ a = b) ∧
    mp_cmp b a = -mp_cmp a b := by
  refine ⟨by simp [runOp, Cmp.Run, set_std_cmp], set_std_cmp a b, ?_, ?_, ?_⟩ <;>
    unfold mp_cmp <;> split_ifs <;>
    (first | omega | (simp_all; omega))

/-- C5: `IsEven::Run` and `IsOdd::Run` never fail: each returns true and
overwrites the result slot with the encoded bit 1 or 0, whatever value the
slot held before, and on every operand exactly one of the two operations
writes 1 while the other writes 0. -/
theorem parity_spec (B : Backend) (ds : Datasource) (r r' a : Int) :
    runOp B .IsEven ds (BnState.mk r [a]) =
      some (true, BnState.mk (if mp_iseven a then 1 else 0) [a]) ∧
    runOp B .IsOdd ds (BnState.mk r' [a]) =
      some (true, BnState.mk (if mp_isodd a then 1 else 0) [a]) ∧
    (((if mp_iseven a then (1 : Int) else 0) = 1 ∧ (if mp_isodd a then (1 : Int) else 0) = 0) ∨
     ((if mp_iseven a then (1 : Int) else 0) = 0 ∧ (if mp_isodd a then (1 : Int) else 0) = 1)) := by
  refine ⟨by simp [runOp, IsEven.Run, set_std_bit],
          by simp [runOp, IsOdd.Run, set_std_bit], ?_⟩
  unfold mp_iseven mp_isodd
  by_cases h : a % 2 = 0 <;> simp [h]

/-- C6: `Div::Run` forwards the backend division verbatim: the boolean is the
backend status compared with `MP_OKAY` and the result slot is whatever the
backend wrote, with no pre-check by the adapter; in particular, on the
spec-modelled backend the operands (10, 0) make it return false with the
result slot untouched. -/
theorem div_forwards_backend_status (B : Backend) (ds : Datasource) (r a b : Int) :
    runOp B .Div ds (BnState.mk r [a, b]) =
      some ((B.mp_div a b r).1 == MP_OKAY, BnState.mk (B.mp_div a b r).2 [a, b]) ∧
    runOp mathBackend .Div ds (BnState.mk r [10, 0]) =
      some (false, BnState.mk r [10, 0]) := by
  constructor <;> simp [runOp, Div.Run, mathBackend, MP_RANGE, MP_OKAY]

/-- C7: on the spec-modelled backend, `Sqr::Run` on (a) and `Mul::Run` on
(a, a) both succeed and leave the same value a·a in the result slot, so
whenever both succeed their results agree. -/
theorem sqr_matches_mul (ds : Datasource) (r r' a : Int) :
    runOp mathBackend .Sqr ds (BnState.mk r [a]) =
      some (true, BnState.mk (a * a) [a]) ∧
    runOp mathBackend .Mul ds (BnState.mk r' [a, a]) =
      some (true, BnState.mk (a * a) [a, a]) := by
  constructor <;> simp [runOp, Sqr.Run, Mul.Run, mathBackend, MP_OKAY]

/-- C8: every operation of the catalogue ignores the decision source: two `Run`
calls with the same backend, operands and initial result but any two decision
sources return identical outcomes. -/
theorem run_ignores_datasource (B : Backend) (op : Op) (ds ds' : Datasource)
    (s : BnState) : runOp B op ds s = runOp B op ds' s := by
  cases op <;> rfl

/-- C9: the `ExpMod` base-zero short-circuit is atomic: when operand 0 is zero,
`Run` returns false and the whole state — the result slot included — is exactly
the state it was given. -/
theorem expmod_zero_atomic (B : Backend) (ds : Datasource) (s : BnState)
    (h : s.bn[0]? = some 0) : runOp B .ExpMod ds s = some (false, s) := by
  simp [runOp, ExpMod.Run, h, mp_cmp]

theorem expmod_zero_atomic_witness :
    (BnState.mk 5 [0, 2, 7]).bn[0]? = some 0 ∧
    runOp mathBackend .ExpMod ds0 (BnState.mk 5 [0, 2, 7]) =
      some (false, BnState.mk 5 [0, 2, 7]) :=
  ⟨by decide, expmod_zero_atomic mathBackend ds0 (BnState.mk 5 [0, 2, 7]) (by decide)⟩

/-- C10: `SqrMod::Run` reads operand slots 0 and 1, so its effective arity is
two: on an operand vector with fewer than two entries the access is out of
bounds (the run is not total), while any vector with at least two entries
yields a completed run. -/
theorem sqrmod_effective_arity (B : Backend) (ds : Datasource) (s : BnState) :
    (s.bn.length < 2 → runOp B .SqrMod ds s = none) ∧
    (2 ≤ s.bn.length → ∃ p, runOp B .SqrMod ds s = some p) := by
  rcases s with ⟨rs, bn⟩
  rcases bn with _ | ⟨a, _ | ⟨b, bn⟩⟩ <;>
    simp [runOp, SqrMod.Run]

theorem sqrmod_effective_arity_witness :
    ((BnState.mk 0 [5]).bn.length < 2 ∧
      runOp mathBackend .SqrMod ds0 (BnState.mk 0 [5]) = none) ∧
    (2 ≤ (BnState.mk 0 [5, 7]).bn.length ∧
      ∃ p, runOp mathBackend .SqrMod ds0 (BnState.mk 0 [5, 7]) = some p) :=
  ⟨⟨by decide, (sqrmod_effective_arity mathBackend ds0 (BnState.mk 0 [5])).1 (by decide)⟩,
   ⟨by decide, (sqrmod_effective_arity mathBackend ds0 (BnState.mk 0 [5, 7])).2 (by decide)⟩⟩

end NSS_bignum
